import Mathlib

/-!
Verification of the geospatial dashboard pipeline (`src/dash.py`) against its
specification. The Python functions are shallowly embedded as Lean functions:
DataFrames become lists of rows, numeric cells become rationals, `None`/`NaN`
become `Option.none`, and a Python exception is modelled by an `Option`/pair
result whose first component is `none`. Streamlit `st.error` calls are
modelled as a list of report strings returned alongside the value.
-/

/-- A cell value of the table (pandas object cells are strings here). -/
abbrev Value := String

/-- A CSS color token. -/
abbrev Color := String

/-- One row of the attribute table, as a map from column name to cell value
(embedding of a pandas row for the columns the filter engine touches). -/
abbrev FRow := String → Value

/-- The column `df[c]` of a table, in row order. -/
def colValues (df : List FRow) (c : String) : List Value :=
  df.map (fun r => r c)

/-- Embedding of `df[col].unique()`: the distinct values of a column.
pandas keeps first-appearance order; only the length of this list is ever
used by the source (`len(df[col].unique())`). -/
def uniqueVals (df : List FRow) (c : String) : List Value :=
  (colValues df c).dedup

/-- One iteration of the loop body of `apply_attribute_filters`
(src/dash.py lines 41-43):
`if values and len(values) != len(df[col].unique()): df = df[df[col].isin(values)]`. -/
def filterStep (df : List FRow) (cv : String × List Value) : List FRow :=
  if (!cv.2.isEmpty) && (cv.2.length != (uniqueVals df cv.1).length) then
    df.filter (fun r => cv.2.contains (r cv.1))
  else
    df

/-- Embedding of `apply_attribute_filters(df, filters)` (src/dash.py lines
40-44). Python dicts iterate in insertion order, so the filter dict becomes a
list of (column, allowed-values) pairs folded over the frame. -/
def apply_attribute_filters (df : List FRow) (filters : List (String × List Value)) :
    List FRow :=
  filters.foldl filterStep df

/-- A concrete two-row table used as counterexample/witness material:
column "Tipo" holds "A" in the first row and "B" in the second. -/
def exRowA : FRow := fun c => if c = "Tipo" then "A" else "x"

/-- Second concrete row, with "Tipo" = "B". -/
def exRowB : FRow := fun c => if c = "Tipo" then "B" else "x"

/-- A concrete nonempty table. -/
def exDf : List FRow := [exRowA, exRowB]

/-- `mapOpt f l` maps `f` over `l`, failing (like a raised exception caught
by the caller) as soon as any element fails; embedding of a pandas column
conversion such as `.astype(float)` that raises on the first bad cell. -/
def mapOpt (f : α → Option β) : List α → Option (List β)
  | [] => some []
  | a :: l =>
    match f a, mapOpt f l with
    | some b, some bs => some (b :: bs)
    | _, _ => none

/-- Decimal digit test on a character. -/
def isDigitCh (c : Char) : Bool := (48 ≤ c.toNat) && (c.toNat ≤ 57)

/-- Numeric value of a decimal digit character. -/
def digitVal (c : Char) : Nat := c.toNat - 48

/-- Value of a digit string read left to right. -/
def digitsToNat (ds : List Char) : Nat :=
  ds.foldl (fun n c => 10 * n + digitVal c) 0

/-- Unsigned part of the Python `float()` literal grammar restricted to the
plain decimal fragment relevant to coordinates: `digits`, `digits.digits`,
`digits.` or `.digits` (at least one digit overall, at most one dot, nothing
else). Exponents, infinities and surrounding whitespace accepted by the real
`float()` do not occur in coordinate cells and are left out. -/
def parseUnsigned (cs : List Char) : Option ℚ :=
  match cs.dropWhile isDigitCh with
  | [] =>
    if (cs.takeWhile isDigitCh).isEmpty then none
    else some (digitsToNat (cs.takeWhile isDigitCh) : ℚ)
  | c :: frac =>
    if c = '.' then
      if (frac.dropWhile isDigitCh).isEmpty then
        if (cs.takeWhile isDigitCh).isEmpty && (frac.takeWhile isDigitCh).isEmpty then none
        else
          some ((digitsToNat (cs.takeWhile isDigitCh) : ℚ) +
            (digitsToNat (frac.takeWhile isDigitCh) : ℚ) /
              (10 : ℚ) ^ (frac.takeWhile isDigitCh).length)
      else none
    else none

/-- Sign handling of Python `float(s)`: an optional sign followed by the
unsigned decimal literal; `none` models the `ValueError` raised on malformed
input. -/
def pyFloatAux : List Char → Option ℚ
  | [] => none
  | c :: rest =>
    if c = '-' then (parseUnsigned rest).map (fun q => -q)
    else if c = '+' then parseUnsigned rest
    else parseUnsigned (c :: rest)

/-- Embedding of Python `float(s)` on coordinate text. -/
def pyFloat (s : String) : Option ℚ := pyFloatAux s.data

/-- Character-level step of `.str.replace(',', '.')`. -/
def normChar (c : Char) : Char := if c = ',' then '.' else c

/-- Embedding of the coordinate normalizer
`df['POINT_X'].astype(str).str.replace(',', '.')` on one cell
(src/dash.py lines 25-26): every comma becomes a dot. -/
def normalizeCoord (s : String) : String := ⟨s.data.map normChar⟩

/-- The whole per-cell coordinate pipeline of `load_data`: normalize the
separators, then parse as a float. -/
def parseCoordCell (s : String) : Option ℚ := pyFloat (normalizeCoord s)

/-- The same numeric text written with each decimal point turned into a
decimal comma: the "variant written with a decimal comma" the spec quantifies
over. -/
def commaVariant (s : String) : String :=
  ⟨s.data.map (fun c => if c = '.' then ',' else c)⟩

/-- Modelled fragment of the external library call
`pd.to_datetime(entry, errors='coerce')` on a single cell: an ISO-8601
calendar date `YYYY-MM-DD` parses to itself, anything else is unparsable and
coerced to a missing value (`none`, pandas `NaT`). The claims below depend
only on parsability being this kind of nontrivial predicate. -/
def parseDate (s : String) : Option String :=
  match s.data with
  | [y1, y2, y3, y4, h1, m1, m2, h2, d1, d2] =>
    if (h1 = '-') && (h2 = '-') &&
        isDigitCh y1 && isDigitCh y2 && isDigitCh y3 && isDigitCh y4 &&
        isDigitCh m1 && isDigitCh m2 && isDigitCh d1 && isDigitCh d2 &&
        (1 ≤ 10 * digitVal m1 + digitVal m2) && (10 * digitVal m1 + digitVal m2 ≤ 12) &&
        (1 ≤ 10 * digitVal d1 + digitVal d2) && (10 * digitVal d1 + digitVal d2 ≤ 31) then
      some s
    else none
  | _ => none

/-- Raw input table as read by `pd.read_excel`: the two coordinate columns as
text cells, and the optional `Data` column (`none` when the workbook has no
such column). -/
structure RawTable where
  pointX : List String
  pointY : List String
  dataCol : Option (List String)

/-- The table produced by a successful `load_data`: parsed coordinates and,
when the `Data` column exists, its per-cell parse results (`none` = `NaT`). -/
structure LoadedTable where
  pointX : List ℚ
  pointY : List ℚ
  dataCol : Option (List (Option String))
deriving DecidableEq

/-- Report text standing for the `st.error` message about a missing `Data`
column (src/dash.py line 22). -/
def dataColMissingMsg : String := "A coluna Data nao foi encontrada no arquivo Excel."

/-- Report text standing for the `st.error` message of the exception handler
of `load_data` (src/dash.py line 30). -/
def excelReadErrorMsg : String := "Erro ao ler o arquivo Excel."

/-- Embedding of `load_data` (src/dash.py lines 15-31): parse the `Data`
column with coercion (reporting only when the column is absent), then convert
`POINT_X` and then `POINT_Y` through comma normalization and `float`; a
failing cell raises, is caught, is reported, and the function returns `None`
for the whole table. The second component collects the `st.error` reports. -/
def load_data (t : RawTable) : Option LoadedTable × List String :=
  let dateReports : List String :=
    match t.dataCol with
    | none => [dataColMissingMsg]
    | some _ => []
  match mapOpt parseCoordCell t.pointX with
  | none => (none, dateReports ++ [excelReadErrorMsg])
  | some xs =>
    match mapOpt parseCoordCell t.pointY with
    | none => (none, dateReports ++ [excelReadErrorMsg])
    | some ys =>
      (some ⟨xs, ys, t.dataCol.map (fun es => es.map parseDate)⟩, dateReports)

/-- A row of the georeferenced frame handed to `create_map`: the transformed
coordinates, the `Data` cell after `load_data`'s coercing parse (`none` =
`NaT`/missing), and the remaining attribute cells by column name (every
column name the caller uses is assumed present, as in the app's frames). -/
structure GeoRow where
  longitude : ℚ
  latitude : ℚ
  dataVal : Option String
  attr : String → Value

/-- One entry of the time-aware GeoJSON feature list built by `create_map`
(src/dash.py lines 111-123): point geometry, ISO time, popup label, style
color. -/
structure TimeFeature where
  lon : ℚ
  lat : ℚ
  time : String
  popup : Value
  styleColor : Color

/-- Python `dict` lookup on the category→color map (`color_map[k]` is
`dictGet m k = some c`, a `KeyError` is `none`; `color_map.get(k, d)` is
`(dictGet m k).getD d`). The map is an association list with distinct keys,
as built by the sidebar loop. -/
def dictGet (m : List (Value × Color)) (k : Value) : Option Color :=
  match m with
  | [] => none
  | p :: rest => if p.1 = k then some p.2 else dictGet rest k

/-- The style color of a time-feature (src/dash.py line 120):
`color_map.get(row[legend_column], 'blue') if color_map else 'blue'`.
When the dict is nonempty but no legend column was chosen, the source
evaluates `row[None]`, which raises a `KeyError` (`none`). -/
def timeStyleColor (color_map : List (Value × Color)) (legend_column : Option String)
    (row : GeoRow) : Option Color :=
  if color_map.isEmpty then some "blue"
  else
    match legend_column with
    | some c => some ((dictGet color_map (row.attr c)).getD "blue")
    | none => none

/-- One time-feature of the loop body (src/dash.py lines 111-123), for a row
whose `Data` cell is the non-missing timestamp `ts`; `none` models a raised
exception. -/
def buildTimeFeature (legend_column : Option String) (color_map : List (Value × Color))
    (row : GeoRow) (ts : String) : Option TimeFeature :=
  (timeStyleColor color_map legend_column row).map (fun col =>
    { lon := row.longitude, lat := row.latitude, time := ts,
      popup := match legend_column with | some c => row.attr c | none => "",
      styleColor := col })

/-- The time-feature collection of `create_map` (src/dash.py lines 108-123):
iterate the frame, keep only rows with `pd.notnull(row['Data'])`, and build a
feature for each; an exception in any iteration aborts the whole loop. -/
def buildTimeFeatures (legend_column : Option String) (color_map : List (Value × Color))
    (gdf : List GeoRow) : Option (List TimeFeature) :=
  mapOpt (fun rt => buildTimeFeature legend_column color_map rt.1 rt.2)
    (gdf.filterMap (fun r => r.dataVal.map (fun ts => (r, ts))))

/-- Report text standing for the `st.error` of `convert_to_geojson` on an
empty frame (src/dash.py line 56). -/
def geoDataFrameEmptyMsg : String := "O GeoDataFrame esta vazio. Verifique os dados filtrados."

/-- Embedding of `convert_to_geojson` (src/dash.py lines 47-63): the
`Longitude`/`Latitude` columns are structurally present in `GeoRow`, so only
the emptiness branch can fail; on a nonempty frame the GeoDataFrame keeps one
point feature per input row, in order, and the file name is returned. -/
def convert_to_geojson (df : List GeoRow) :
    Option (String × List GeoRow) × List String :=
  if df.isEmpty then (none, [geoDataFrameEmptyMsg])
  else (some ("output.geojson", df), [])

/-- Basemap dispatch of `create_map` (src/dash.py lines 86-97): unmatched
options fall through to OpenStreetMap. -/
def basemapName (basemap_option : String) : String :=
  if basemap_option = "Google Maps" then "ROADMAP"
  else if basemap_option = "Google Satellite" then "SATELLITE"
  else if basemap_option = "Google Terrain" then "TERRAIN"
  else if basemap_option = "ESRI Satellite" then "Esri.WorldImagery"
  else if basemap_option = "ESRI Street" then "Esri.WorldStreetMap"
  else "openstreetmap"

/-- Report text standing for the `st.error` when the time-feature list is
empty (src/dash.py line 143). -/
def noTimeDataMsg : String := "Nenhum dado disponivel para criar o mapa temporal."

/-- The categorical marker list (src/dash.py lines 146-152): one
`CircleMarker` per row of the frame, colored by the direct dict indexing
`color_map[row[legend_column]]`; an unmapped legend value raises `KeyError`
(`none`). -/
def buildMarkers (color_map : List (Value × Color)) (c : String) (gdf : List GeoRow) :
    Option (List (ℚ × ℚ × Color)) :=
  mapOpt (fun r => (dictGet color_map (r.attr c)).map
    (fun col => (r.latitude, r.longitude, col))) gdf

/-- The composed map state after `create_map` returns: base layer, fixed
overlays, and the optional heat, time and categorical layers with the legend
panel. -/
structure Scene where
  basemap : String
  hasLogo : Bool
  hasLocateControl : Bool
  heatLayer : Option (List (ℚ × ℚ))
  timeLayer : Option (List TimeFeature)
  markerLayer : Option (List (ℚ × ℚ × Color))
  legendPanel : Option (List (Value × Color))

/-- Embedding of `create_map` (src/dash.py lines 83-170). `hasDataColumn`
is `'Data' in gdf.columns`. The result is `none` when the source would raise
(a `KeyError` from the time-feature style lookup or from the marker-color
indexing); otherwise the Scene plus the list of `st.error` reports issued. -/
def create_map (gdf : List GeoRow) (basemap_option : String)
    (legend_column : Option String) (color_map : List (Value × Color))
    (generate_heatmap generate_time_series hasDataColumn : Bool) :
    Option (Scene × List String) :=
  let heat : Option (List (ℚ × ℚ)) :=
    if generate_heatmap then some (gdf.map (fun r => (r.latitude, r.longitude))) else none
  let timeRes : Option (Option (List TimeFeature) × List String) :=
    if generate_time_series && hasDataColumn then
      match buildTimeFeatures legend_column color_map gdf with
      | none => none
      | some [] => some (none, [noTimeDataMsg])
      | some (f :: fs) => some (some (f :: fs), [])
    else some (none, [])
  match timeRes with
  | none => none
  | some (tl, reps) =>
    match legend_column with
    | none =>
      some ({ basemap := basemapName basemap_option, hasLogo := true,
              hasLocateControl := true, heatLayer := heat, timeLayer := tl,
              markerLayer := none, legendPanel := none }, reps)
    | some c =>
      if color_map.isEmpty then
        some ({ basemap := basemapName basemap_option, hasLogo := true,
                hasLocateControl := true, heatLayer := heat, timeLayer := tl,
                markerLayer := none, legendPanel := none }, reps)
      else
        match buildMarkers color_map c gdf with
        | none => none
        | some ms =>
          some ({ basemap := basemapName basemap_option, hasLogo := true,
                  hasLocateControl := true, heatLayer := heat, timeLayer := tl,
                  markerLayer := some ms, legendPanel := some color_map }, reps)

/-- Report text standing for the `st.error` of the main flow when
`convert_to_geojson` returned `None` (src/dash.py line 314). -/
def geojsonFailMsg : String := "Falha ao converter os dados para GeoJSON."

/-- The composition fragment of the main flow (src/dash.py lines 276-293):
convert the frame to GeoJSON, and only if that succeeded call `create_map`;
otherwise report and produce no Scene. `none` in the first component means no
Scene was produced (either the reported skip or an uncaught exception). -/
def composeScene (df : List GeoRow) (basemap_option : String)
    (legend_column : Option String) (color_map : List (Value × Color))
    (generate_heatmap generate_time_series hasDataColumn : Bool) :
    Option Scene × List String :=
  match convert_to_geojson df with
  | (none, reps) => (none, reps ++ [geojsonFailMsg])
  | (some (_, gdf), reps) =>
    match create_map gdf basemap_option legend_column color_map
        generate_heatmap generate_time_series hasDataColumn with
    | none => (none, reps)
    | some (scene, reps2) => (some scene, reps ++ reps2)

/-- Default chart color of `create_statistics_chart` (src/dash.py line 194). -/
def statDefaultColor : Color := "#1f77b4"

/-- Chart color lookup (src/dash.py line 194):
`color_map.get(val, '#1f77b4')`. -/
def statColor (color_map : List (Value × Color)) (v : Value) : Color :=
  (dictGet color_map v).getD statDefaultColor

/-- Embedding of `df[column_name].value_counts()`: the count of each distinct
non-missing value of the column (pandas drops `NaN` cells here). pandas
orders the result by descending count; the properties proved below do not
depend on the order, so the distinct values are enumerated by `dedup`. -/
def valueCounts (col : List (Option Value)) : List (Value × Nat) :=
  let vals := col.filterMap id
  vals.dedup.map (fun v => (v, vals.count v))

/-- One row of the `stats_df` frame of `create_statistics_chart`. -/
structure StatsRow where
  categoria : Value
  contagem : Nat
  percentual : ℚ
deriving DecidableEq

/-- Embedding of `create_statistics_chart` (src/dash.py lines 180-194), up to
the chart objects: the per-category counts and percentages
(`percentages = counts / total_count * 100` with `total_count = counts.sum()`),
and the chart colors resolved through `color_map.get(val, '#1f77b4')`. -/
def create_statistics_chart (col : List (Option Value))
    (color_map : List (Value × Color)) : List StatsRow × List Color :=
  let counts := valueCounts col
  let total : Nat := (counts.map (fun p => p.2)).sum
  let stats := counts.map (fun p =>
    { categoria := p.1, contagem := p.2,
      percentual := ((p.2 : ℚ) / (total : ℚ)) * 100 : StatsRow })
  (stats, stats.map (fun s => statColor color_map s.categoria))

/-- A concrete georeferenced row whose "Tipo" attribute is "C" and whose
`Data` cell is missing. -/
def exGeoRowC : GeoRow :=
  { longitude := 1, latitude := 2, dataVal := none,
    attr := fun c => if c = "Tipo" then "C" else "x" }

/-- A concrete georeferenced row with "Tipo" = "A" and a timestamp. -/
def exGeoRowA : GeoRow :=
  { longitude := 3, latitude := 4, dataVal := some "2023-01-05",
    attr := fun c => if c = "Tipo" then "A" else "x" }

-- ------------------------------------------------------------------
-- Theorems
-- ------------------------------------------------------------------

theorem mapOpt_eq_none_of_mem {f : α → Option β} {l : List α} {a : α}
    (ha : a ∈ l) (hfa : f a = none) : mapOpt f l = none := by
  induction l with
  | nil => cases ha
  | cons b l ih =>
    rcases List.mem_cons.mp ha with h | h
    · subst h
      simp [mapOpt, hfa]
    · cases hfb : f b <;> simp [mapOpt, hfb, ih h]

theorem count_dot_takeWhile (cs : List Char) :
    (cs.takeWhile isDigitCh).count '.' = 0 := by
  rw [List.count_eq_zero]
  intro h
  have := List.mem_takeWhile_imp h
  simp [isDigitCh] at this

theorem parseUnsigned_dot_count {cs : List Char} {q : ℚ}
    (h : parseUnsigned cs = some q) : cs.count '.' ≤ 1 := by
  have hsplit : cs.takeWhile isDigitCh ++ cs.dropWhile isDigitCh = cs :=
    List.takeWhile_append_dropWhile isDigitCh cs
  rcases hdw : cs.dropWhile isDigitCh with _ | ⟨c, frac⟩
  · rw [← hsplit, hdw, List.count_append]
    simp [count_dot_takeWhile]
  · unfold parseUnsigned at h
    rw [hdw] at h
    by_cases hc : c = '.'
    · subst hc
      by_cases hfe : (frac.dropWhile isDigitCh).isEmpty = true
      · have hfrac : frac.takeWhile isDigitCh = frac := by
          have h2 : frac.takeWhile isDigitCh ++ frac.dropWhile isDigitCh = frac :=
            List.takeWhile_append_dropWhile isDigitCh frac
          rwa [List.isEmpty_iff.mp hfe, List.append_nil] at h2
        rw [← hsplit, hdw, List.count_append, count_dot_takeWhile, List.count_cons]
        have : frac.count '.' = 0 := by
          rw [← hfrac]
          exact count_dot_takeWhile frac
        simp [this]
      · simp [hfe] at h
    · simp [hc] at h

theorem pyFloatAux_dot_count {cs : List Char} {q : ℚ}
    (h : pyFloatAux cs = some q) : cs.count '.' ≤ 1 := by
  cases cs with
  | nil => cases h
  | cons c rest =>
    rw [show pyFloatAux (c :: rest) =
        (if c = '-' then (parseUnsigned rest).map (fun q => -q)
         else if c = '+' then parseUnsigned rest
         else parseUnsigned (c :: rest)) from rfl] at h
    by_cases hminus : c = '-'
    · subst hminus
      rw [if_pos rfl] at h
      rcases Option.map_eq_some'.mp h with ⟨q', hq', _⟩
      have := parseUnsigned_dot_count hq'
      simp [List.count_cons]
      omega
    · by_cases hplus : c = '+'
      · subst hplus
        rw [if_neg (by decide), if_pos rfl] at h
        have := parseUnsigned_dot_count h
        simp [List.count_cons]
        omega
      · rw [if_neg hminus, if_neg hplus] at h
        exact parseUnsigned_dot_count h

theorem pyFloat_dot_count {s : String} {q : ℚ}
    (h : pyFloat s = some q) : s.data.count '.' ≤ 1 :=
  pyFloatAux_dot_count h

theorem count_dot_map_normChar (l : List Char) :
    (l.map normChar).count '.' = l.count '.' + l.count ',' := by
  induction l with
  | nil => rfl
  | cons c l ih =>
    by_cases h1 : c = ','
    · subst h1
      simp [normChar, List.count_cons, ih]
      omega
    · by_cases h2 : c = '.'
      · subst h2
        simp [normChar, List.count_cons, ih]
        omega
      · simp [normChar, h1, h2, List.count_cons, ih]

theorem no_comma_map_normChar (l : List Char) : ',' ∉ l.map normChar := by
  intro h
  rcases List.mem_map.mp h with ⟨c, _, hc⟩
  by_cases h1 : c = ',' <;> simp [normChar, h1] at hc

/-- Claim C10: the normalizer replaces every comma of a coordinate cell (the
normalized text has no comma left), and for any cell containing two or more
commas the normalized text has two or more dots, so the float parse fails and
`load_data` returns `None` for the whole table. -/
theorem claim10_multi_comma_aborts (t : RawTable) (s : String)
    (hs : s ∈ t.pointX) (h2 : 2 ≤ s.data.count ',') :
    ',' ∉ (normalizeCoord s).data ∧ parseCoordCell s = none ∧
      (load_data t).1 = none := by
  refine ⟨no_comma_map_normChar s.data, ?_, ?_⟩
  · rcases hp : parseCoordCell s with _ | q
    · rfl
    · exfalso
      have hcount := pyFloat_dot_count (s := normalizeCoord s) (q := q) hp
      rw [show (normalizeCoord s).data = s.data.map normChar from rfl,
        count_dot_map_normChar] at hcount
      omega
  · have hx : mapOpt parseCoordCell t.pointX = none := by
      apply mapOpt_eq_none_of_mem hs
      rcases hp : parseCoordCell s with _ | q
      · rfl
      · exfalso
        have hcount := pyFloat_dot_count (s := normalizeCoord s) (q := q) hp
        rw [show (normalizeCoord s).data = s.data.map normChar from rfl,
          count_dot_map_normChar] at hcount
        omega
    unfold load_data
    rw [hx]

/-- Claim C10 witness: the concrete cell "1,234,5" (thousands separator plus
decimal comma) in the X column makes `load_data` return `None`. -/
theorem claim10_witness :
    ',' ∉ (normalizeCoord "1,234,5").data ∧ parseCoordCell "1,234,5" = none ∧
      (load_data ⟨["1,234,5"], ["0"], none⟩).1 = none :=
  claim10_multi_comma_aborts ⟨["1,234,5"], ["0"], none⟩ "1,234,5"
    (by decide) (by decide)

theorem normChar_commaVariant (c : Char) :
    normChar (if c = '.' then ',' else c) = normChar c := by
  by_cases h : c = '.'
  · subst h; rfl
  · rw [if_neg h]

/-- Claim C8: for every valid numeric coordinate string, the comma-written
variant of the string normalizes to the same text as the point-written
original, hence parses to the same double-precision value (and in particular
also parses successfully). -/
theorem claim8_comma_equals_point (s : String)
    (hv : (parseCoordCell s).isSome = true) :
    parseCoordCell (commaVariant s) = parseCoordCell s ∧
      (parseCoordCell (commaVariant s)).isSome = true := by
  have hnorm : normalizeCoord (commaVariant s) = normalizeCoord s := by
    show (⟨((s.data.map fun c => if c = '.' then ',' else c).map normChar)⟩ : String) =
      ⟨s.data.map normChar⟩
    rw [List.map_map]
    congr 1
    exact List.map_congr_left (fun c _ => normChar_commaVariant c)
  constructor
  · show pyFloat (normalizeCoord (commaVariant s)) = pyFloat (normalizeCoord s)
    rw [hnorm]
  · show (pyFloat (normalizeCoord (commaVariant s))).isSome = true
    rw [hnorm]
    exact hv

/-- Claim C8 witness: "680000.5" is a valid numeric string, and its
comma-variant "680000,5" parses to the same value. -/
theorem claim8_witness :
    parseCoordCell (commaVariant "680000.5") = parseCoordCell "680000.5" ∧
      (parseCoordCell (commaVariant "680000.5")).isSome = true :=
  claim8_comma_equals_point "680000.5" (by decide)

theorem filterStep_of_empty (df : List FRow) (c : String) :
    filterStep df (c, []) = df := rfl

theorem filterStep_of_len_eq (df : List FRow) (c : String) (vs : List Value)
    (hlen : vs.length = (uniqueVals df c).length) : filterStep df (c, vs) = df := by
  unfold filterStep
  simp [hlen]

theorem filterStep_subset (df : List FRow) (cv : String × List Value) :
    ∀ r ∈ filterStep df cv, r ∈ df := by
  intro r hr
  unfold filterStep at hr
  by_cases h : ((!cv.2.isEmpty) && (cv.2.length != (uniqueVals df cv.1).length)) = true
  · rw [if_pos h] at hr
    exact (List.mem_filter.mp hr).1
  · rw [if_neg h] at hr
    exact hr

/-- Claim C1 (counterexample): filtering the concrete two-row table with an
empty allowed set for column "Tipo" returns the table unchanged — two rows,
not zero — because `if values and ...` is falsy for an empty list and the
constraint is skipped. -/
theorem claim1_counterexample :
    apply_attribute_filters exDf [("Tipo", [])] = exDf ∧ exDf ≠ [] := by
  constructor
  · rfl
  · simp [exDf]

/-- Claim C1 (amended): an empty allowed set for a constrained column is
skipped entirely (treated as no constraint, a no-op): filtering with the
empty-set entry present gives the same result as filtering without it, for
every table and every remaining filter list; it does not return zero rows. -/
theorem claim1_amended (df : List FRow) (c : String)
    (rest : List (String × List Value)) :
    apply_attribute_filters df ((c, ([] : List Value)) :: rest) =
      apply_attribute_filters df rest := rfl

/-- Claim C4: if, for every constrained field, the allowed set equals (as a
set) the full set of distinct values present for that field in the input
table, then `apply_attribute_filters` returns the input table unchanged,
row for row (same order, same count). -/
theorem claim4_full_set_noop (df : List FRow) (filters : List (String × List Value))
    (h : ∀ cv ∈ filters, cv.2.toFinset = (colValues df cv.1).toFinset) :
    apply_attribute_filters df filters = df := by
  induction filters with
  | nil => rfl
  | cons cv rest ih =>
    have hcv := h cv (List.mem_cons_self cv rest)
    have hstep : filterStep df cv = df := by
      unfold filterStep
      by_cases hc : ((!cv.2.isEmpty) && (cv.2.length != (uniqueVals df cv.1).length)) = true
      · rw [if_pos hc]
        apply List.filter_eq_self.mpr
        intro r hr
        have hmem : r cv.1 ∈ colValues df cv.1 := List.mem_map_of_mem (fun r => r cv.1) hr
        have : r cv.1 ∈ cv.2.toFinset := by
          rw [hcv]
          exact List.mem_toFinset.mpr hmem
        exact List.elem_eq_true_of_mem (List.mem_toFinset.mp this)
      · rw [if_neg hc]
    show apply_attribute_filters (filterStep df cv) rest = df
    rw [hstep]
    exact ih (fun cv' h' => h cv' (List.mem_cons_of_mem cv h'))

/-- Claim C4 witness: the concrete table `exDf` filtered with the full
distinct-value set of "Tipo" comes back unchanged. -/
theorem claim4_witness :
    apply_attribute_filters exDf [("Tipo", ["A", "B"])] = exDf :=
  claim4_full_set_noop exDf [("Tipo", ["A", "B"])] (by decide)

/-- Claim C9: the engine treats a column constraint as a no-op purely by
cardinality: whenever the length of its allowed list equals the number of
distinct values of that column in the frame being filtered at that step
(the listed values need not occur in the frame at all — see the
witness), that step returns the frame unchanged; and the engine consumes the
filter list sequentially, each later comparison running against the
progressively filtered frame, not the original table. -/
theorem claim9_cardinality_noop (df : List FRow) (c : String) (vs : List Value)
    (rest : List (String × List Value))
    (hlen : vs.length = (uniqueVals df c).length) :
    filterStep df (c, vs) = df ∧
      apply_attribute_filters df ((c, vs) :: rest) =
        apply_attribute_filters (filterStep df (c, vs)) rest :=
  ⟨filterStep_of_len_eq df c vs hlen, rfl⟩

/-- Claim C9 witness: the allowed list ["P", "Q"] shares no value with
column "Tipo" of `exDf` (whose values are "A", "B"), yet because its length
equals the distinct count (2) the constraint is skipped and the table is
returned unchanged. -/
theorem claim9_witness :
    filterStep exDf ("Tipo", ["P", "Q"]) = exDf ∧
      apply_attribute_filters exDf [("Tipo", ["P", "Q"])] =
        apply_attribute_filters (filterStep exDf ("Tipo", ["P", "Q"])) [] :=
  claim9_cardinality_noop exDf "Tipo" ["P", "Q"] [] (by decide)

theorem mapOpt_length {f : α → Option β} {l : List α} {bs : List β}
    (h : mapOpt f l = some bs) : bs.length = l.length := by
  induction l generalizing bs with
  | nil => cases h; rfl
  | cons a l ih =>
    unfold mapOpt at h
    cases hfa : f a with
    | none => rw [hfa] at h; cases h
    | some b =>
      rw [hfa] at h
      cases hml : mapOpt f l with
      | none => rw [hml] at h; cases h
      | some bs' =>
        rw [hml] at h
        cases h
        simp [ih hml]

theorem mapOpt_some_of_all {f : α → Option β} {l : List α}
    (h : ∀ a ∈ l, (f a).isSome = true) : ∃ bs, mapOpt f l = some bs := by
  induction l with
  | nil => exact ⟨[], rfl⟩
  | cons a l ih =>
    obtain ⟨b, hb⟩ := Option.isSome_iff_exists.mp (h a (List.mem_cons_self a l))
    obtain ⟨bs, hbs⟩ := ih (fun x hx => h x (List.mem_cons_of_mem a hx))
    exact ⟨b :: bs, by simp [mapOpt, hb, hbs]⟩

theorem mapOpt_mem {f : α → Option β} {l : List α} {bs : List β}
    (h : mapOpt f l = some bs) : ∀ b ∈ bs, ∃ a ∈ l, f a = some b := by
  induction l generalizing bs with
  | nil => cases h; intro b hb; cases hb
  | cons a l ih =>
    unfold mapOpt at h
    cases hfa : f a with
    | none => rw [hfa] at h; cases h
    | some b0 =>
      rw [hfa] at h
      cases hml : mapOpt f l with
      | none => rw [hml] at h; cases h
      | some bs' =>
        rw [hml] at h
        cases h
        intro b hb
        rcases List.mem_cons.mp hb with rfl | hb'
        · exact ⟨a, List.mem_cons_self a l, hfa⟩
        · obtain ⟨a', ha', hfa'⟩ := ih hml b hb'
          exact ⟨a', List.mem_cons_of_mem a ha', hfa'⟩

/-- Claim C7 (counterexample): a table whose `Data` column holds the
unparsable entry "garbage" loads successfully, the entry is silently coerced
to a missing value, and the report list is empty — the unparsable entry was
not reported to the user. -/
theorem claim7_counterexample :
    parseDate "garbage" = none ∧
      load_data ⟨["1"], ["2"], some ["garbage"]⟩ =
        (some ⟨[1], [2], some [none]⟩, []) := by
  constructor
  · rfl
  · decide

/-- Claim C7 (amended): `load_data` parses the `Data` column with
`errors='coerce'`: whenever the column is present and the coordinates
convert, every unparsable entry is silently turned into a missing value
(`parseDate` applied cell-wise) and no report at all is issued; only the
absence of the whole `Data` column is reported. -/
theorem claim7_amended (t : RawTable) (entries : List String)
    (hd : t.dataCol = some entries) (xs ys : List ℚ)
    (hx : mapOpt parseCoordCell t.pointX = some xs)
    (hy : mapOpt parseCoordCell t.pointY = some ys) :
    load_data t = (some ⟨xs, ys, some (entries.map parseDate)⟩, []) := by
  unfold load_data
  rw [hx, hy, hd]
  simp

/-- Claim C7 witness: a concrete table with one parsable and one unparsable
date entry loads with no report and with the bad entry coerced to `none`. -/
theorem claim7_witness :
    load_data ⟨["1"], ["2"], some ["2023-01-05", "garbage"]⟩ =
      (some ⟨[1], [2], some (["2023-01-05", "garbage"].map parseDate)⟩, []) :=
  claim7_amended ⟨["1"], ["2"], some ["2023-01-05", "garbage"]⟩
    ["2023-01-05", "garbage"] rfl [1] [2] (by decide) (by decide)

theorem timeStyleColor_legend_some (cm : List (Value × Color)) (c : String)
    (row : GeoRow) :
    timeStyleColor cm (some c) row =
      some (if cm.isEmpty then "blue" else (dictGet cm (row.attr c)).getD "blue") := by
  unfold timeStyleColor
  by_cases h : cm.isEmpty <;> simp [h]

theorem buildTimeFeature_legend_some (cm : List (Value × Color)) (c : String)
    (row : GeoRow) (ts : String) :
    buildTimeFeature (some c) cm row ts = some
      { lon := row.longitude, lat := row.latitude, time := ts, popup := row.attr c,
        styleColor :=
          if cm.isEmpty then "blue" else (dictGet cm (row.attr c)).getD "blue" } := by
  unfold buildTimeFeature
  rw [timeStyleColor_legend_some]
  rfl

theorem buildTimeFeature_ok (lc : Option String) (cm : List (Value × Color))
    (row : GeoRow) (ts : String) (h : cm = [] ∨ ∃ c, lc = some c) :
    ∃ f, buildTimeFeature lc cm row ts = some f ∧ f.time = ts := by
  rcases h with rfl | ⟨c, rfl⟩
  · exact ⟨_, rfl, rfl⟩
  · exact ⟨_, buildTimeFeature_legend_some cm c row ts, rfl⟩

theorem timestamped_pairs_length (gdf : List GeoRow) :
    (gdf.filterMap (fun r => r.dataVal.map (fun ts => (r, ts)))).length =
      (gdf.filter (fun r => r.dataVal.isSome)).length := by
  induction gdf with
  | nil => rfl
  | cons r l ih =>
    cases hd : r.dataVal <;>
      simp [List.filterMap_cons, List.filter_cons, hd, ih]

theorem buildTimeFeatures_ok (lc : Option String) (cm : List (Value × Color))
    (gdf : List GeoRow) (h : cm = [] ∨ ∃ c, lc = some c) :
    ∃ fs, buildTimeFeatures lc cm gdf = some fs ∧
      fs.length = (gdf.filter (fun r => r.dataVal.isSome)).length ∧
      ∀ f ∈ fs, ∃ r ∈ gdf, r.dataVal = some f.time := by
  obtain ⟨fs, hfs⟩ := mapOpt_some_of_all
    (f := fun rt => buildTimeFeature lc cm rt.1 rt.2)
    (l := gdf.filterMap (fun r => r.dataVal.map (fun ts => (r, ts))))
    (fun rt _ => by
      obtain ⟨f, hf, -⟩ := buildTimeFeature_ok lc cm rt.1 rt.2 h
      simp [hf])
  refine ⟨fs, hfs, ?_, ?_⟩
  · rw [mapOpt_length hfs, timestamped_pairs_length]
  · intro f hf
    obtain ⟨⟨r, ts⟩, hmem, hbf⟩ := mapOpt_mem hfs f hf
    obtain ⟨a, ha, hmap⟩ := List.mem_filterMap.mp hmem
    cases hd : a.dataVal with
    | none => rw [hd] at hmap; cases hmap
    | some ts' =>
      rw [hd, Option.map_some'] at hmap
      injection hmap with hpair
      have h1 : a = r := congrArg Prod.fst hpair
      have h2 : ts' = ts := congrArg Prod.snd hpair
      subst h1
      subst h2
      have hbf2 : buildTimeFeature lc cm a ts' = some f := hbf
      obtain ⟨f', hf', ht'⟩ := buildTimeFeature_ok lc cm a ts' h
      rw [hbf2] at hf'
      injection hf' with hff
      refine ⟨a, ha, ?_⟩
      rw [hd, hff, ht']

/-- Claim C3: in time-aware mode the emitted time-feature collection exists
(no exception, given the app invariant that a nonempty color map implies a
chosen legend column), its size equals the number of rows of the frame whose
`Data` timestamp is non-missing (after `load_data`'s coercing parse,
non-missing means parsable), every emitted feature carries the timestamp of
some frame row, and every row with a missing timestamp is still present in
the general (base) feature set built by `convert_to_geojson`, which keeps one
point feature per row. -/
theorem claim3_time_feature_count (gdf : List GeoRow) (legend_column : Option String)
    (color_map : List (Value × Color))
    (h : color_map = [] ∨ ∃ c, legend_column = some c) :
    ∃ fs, buildTimeFeatures legend_column color_map gdf = some fs ∧
      fs.length = (gdf.filter (fun r => r.dataVal.isSome)).length ∧
      (∀ f ∈ fs, ∃ r ∈ gdf, r.dataVal = some f.time) ∧
      (∀ r ∈ gdf, r.dataVal = none →
        ∃ base, (convert_to_geojson gdf).1 = some ("output.geojson", base) ∧
          r ∈ base ∧ base.length = gdf.length) := by
  obtain ⟨fs, hfs, hlen, hmem⟩ := buildTimeFeatures_ok legend_column color_map gdf h
  refine ⟨fs, hfs, hlen, hmem, ?_⟩
  intro r hr _
  have hne : gdf.isEmpty = false := by
    cases gdf with
    | nil => cases hr
    | cons a l => rfl
  refine ⟨gdf, ?_, hr, rfl⟩
  simp [convert_to_geojson, hne]

/-- Claim C3 witness: on a concrete two-row frame (one timestamped row, one
with missing `Data`), exactly one time-feature is emitted and the
missing-timestamp row still appears among the two base features. -/
theorem claim3_witness :
    ∃ fs, buildTimeFeatures none [] [exGeoRowA, exGeoRowC] = some fs ∧
      fs.length = ([exGeoRowA, exGeoRowC].filter (fun r => r.dataVal.isSome)).length ∧
      (∀ f ∈ fs, ∃ r ∈ [exGeoRowA, exGeoRowC], r.dataVal = some f.time) ∧
      (∀ r ∈ [exGeoRowA, exGeoRowC], r.dataVal = none →
        ∃ base, (convert_to_geojson [exGeoRowA, exGeoRowC]).1 =
            some ("output.geojson", base) ∧
          r ∈ base ∧ base.length = [exGeoRowA, exGeoRowC].length) :=
  claim3_time_feature_count [exGeoRowA, exGeoRowC] none [] (Or.inl rfl)

/-- Claim C2 (counterexample): composing the categorical marker layer for a
frame containing a row whose legend value "C" has no entry in the color map
raises a `KeyError` (the direct indexing `color_map[row[legend_column]]`):
`create_map` does not fall back to a default color but fails. -/
theorem claim2_counterexample :
    create_map [exGeoRowC] "OpenStreetMap" (some "Tipo") [("A", "#ff0000")]
      false false false = none := rfl

/-- Claim C2 (amended): the time-aware style lookup and the statistics chart
color lookup both fall back to a defined default color ("blue" and "#1f77b4")
for a legend value unmapped in the CategoryColorMap; but the categorical
marker layer indexes the map directly, so composing it with any row whose
legend value is unmapped raises and `create_map` fails instead of falling
back. -/
theorem claim2_amended :
    (∀ (cm : List (Value × Color)) (c : String) (row : GeoRow) (ts : String),
        dictGet cm (row.attr c) = none →
          ∃ f, buildTimeFeature (some c) cm row ts = some f ∧ f.styleColor = "blue") ∧
    (∀ (cm : List (Value × Color)) (v : Value),
        dictGet cm v = none → statColor cm v = statDefaultColor) ∧
    (∀ (gdf : List GeoRow) (b : String) (cm : List (Value × Color)) (c : String)
        (gh gts hdc : Bool) (r : GeoRow),
        r ∈ gdf → cm ≠ [] → dictGet cm (r.attr c) = none →
          create_map gdf b (some c) cm gh gts hdc = none) := by
  refine ⟨?_, ?_, ?_⟩
  · intro cm c row ts hmiss
    refine ⟨_, buildTimeFeature_legend_some cm c row ts, ?_⟩
    show (if cm.isEmpty then "blue" else (dictGet cm (row.attr c)).getD "blue") = "blue"
    rw [hmiss]
    simp
  · intro cm v hmiss
    simp [statColor, hmiss]
  · intro gdf b cm c gh gts hdc r hr hcm hmiss
    have hmark : buildMarkers cm c gdf = none := by
      apply mapOpt_eq_none_of_mem hr
      rw [hmiss]
      rfl
    have hcme : cm.isEmpty = false := by
      cases cm with
      | nil => exact absurd rfl hcm
      | cons p l => rfl
    obtain ⟨fs, hfs, -, -⟩ := buildTimeFeatures_ok (some c) cm gdf (Or.inr ⟨c, rfl⟩)
    cases hgts : (gts && hdc) with
    | false => simp [create_map, hgts, hcme, hmark]
    | true =>
      cases fs with
      | nil => simp [create_map, hgts, hfs, hcme, hmark]
      | cons f fs' => simp [create_map, hgts, hfs, hcme, hmark]

/-- Claim C2 witness: concrete instances of the three amended statements —
the unmapped value "C" gets the default "blue" in a time feature, the default
"#1f77b4" in the chart, and makes `create_map` raise on the marker layer. -/
theorem claim2_amended_witness :
    (∃ f, buildTimeFeature (some "Tipo") [("A", "#ff0000")] exGeoRowC "2023-01-06" =
        some f ∧ f.styleColor = "blue") ∧
    statColor [("A", "#ff0000")] "C" = statDefaultColor ∧
    create_map [exGeoRowC] "Google Maps" (some "Tipo") [("A", "#ff0000")]
      true false false = none :=
  ⟨claim2_amended.1 [("A", "#ff0000")] "Tipo" exGeoRowC "2023-01-06" (by decide),
   claim2_amended.2.1 [("A", "#ff0000")] "C" (by decide),
   claim2_amended.2.2 [exGeoRowC] "Google Maps" [("A", "#ff0000")] "Tipo"
     true false false exGeoRowC (List.mem_singleton.mpr rfl) (by simp) (by decide)⟩

/-- Claim C5 (counterexample): requesting a heat layer when the point feature
set is empty does not produce a Scene at all — the claim that a Scene without
a heat layer is still returned fails: composition stops after
`convert_to_geojson` reports the empty frame and returns `None`. -/
theorem claim5_counterexample :
    (composeScene [] "OpenStreetMap" none [] true false false).1 = none := rfl

/-- Claim C5 (amended): requesting a heat layer on an empty point feature set
never raises an exception, but it also produces no Scene: for every basemap,
legend and color-map configuration, the composition reports the empty
GeoDataFrame and the conversion failure and returns no Scene — the whole
composition is skipped, not just the heat layer. -/
theorem claim5_amended (b : String) (lc : Option String)
    (cm : List (Value × Color)) (gts hdc : Bool) :
    composeScene [] b lc cm true gts hdc =
      (none, [geoDataFrameEmptyMsg, geojsonFailMsg]) := rfl

theorem sum_map_count_cons_aux (d : List Value) (a : Value) (l : List Value)
    (hnd : d.Nodup) :
    (d.map (fun v => (a :: l).count v)).sum =
      (d.map (fun v => l.count v)).sum + (if a ∈ d then 1 else 0) := by
  induction d with
  | nil => simp
  | cons b d ih =>
    obtain ⟨hbd, hd⟩ := List.nodup_cons.mp hnd
    simp only [List.map_cons, List.sum_cons, ih hd, List.mem_cons]
    by_cases hba : b = a
    · subst hba
      rw [List.count_cons_self]
      have hbd' : b ∉ d := hbd
      simp [hbd']
      omega
    · rw [List.count_cons_of_ne hba]
      have hab : ¬(a = b) := fun h => hba h.symm
      by_cases had : a ∈ d
      · simp [hab, had]
        omega
      · simp [hab, had]

theorem sum_dedup_count (l : List Value) :
    (l.dedup.map (fun v => l.count v)).sum = l.length := by
  induction l with
  | nil => rfl
  | cons a l ih =>
    by_cases ha : a ∈ l
    · rw [List.dedup_cons_of_mem ha,
        sum_map_count_cons_aux _ _ _ (List.nodup_dedup l), ih]
      have hmem : a ∈ l.dedup := List.mem_dedup.mpr ha
      simp [hmem]
    · rw [List.dedup_cons_of_not_mem ha]
      simp only [List.map_cons, List.sum_cons]
      rw [List.count_cons_self,
        sum_map_count_cons_aux _ _ _ (List.nodup_dedup l), ih]
      have h1 : a ∉ l.dedup := fun h => ha (List.mem_dedup.mp h)
      have h2 : l.count a = 0 := List.count_eq_zero.mpr ha
      simp [h1, h2]
      omega

theorem sum_map_div_mul (d : List Value) (g : Value → Nat) (T : ℚ) :
    (d.map (fun v => ((g v : ℚ) / T) * 100)).sum =
      (((d.map g).sum : ℚ) / T) * 100 := by
  induction d with
  | nil => simp
  | cons b d ih =>
    simp only [List.map_cons, List.sum_cons, ih]
    push_cast
    ring

theorem stats_counts_eq (col : List (Option Value)) (cm : List (Value × Color)) :
    (create_statistics_chart col cm).1.map (fun s => s.contagem) =
      (col.filterMap id).dedup.map (fun v => (col.filterMap id).count v) := by
  simp only [create_statistics_chart, valueCounts, List.map_map]
  rfl

theorem stats_total_eq (col : List (Option Value)) :
    ((valueCounts col).map (fun p => p.2)).sum = (col.filterMap id).length := by
  unfold valueCounts
  rw [List.map_map]
  exact sum_dedup_count (col.filterMap id)

theorem stats_pcts_eq (col : List (Option Value)) (cm : List (Value × Color)) :
    (create_statistics_chart col cm).1.map (fun s => s.percentual) =
      (col.filterMap id).dedup.map (fun v =>
        (((col.filterMap id).count v : ℚ) / ((col.filterMap id).length : ℚ)) * 100) := by
  simp only [create_statistics_chart]
  rw [stats_total_eq]
  simp only [valueCounts, List.map_map]
  rfl

/-- Claim C6 (counterexample): on the non-empty filtered column
`[some "a", none]` (two rows, one of them with a missing value in the target
column), the counts returned by the Statistics Aggregator sum to 1, not to
the total filtered row count 2 — `value_counts()` silently drops missing
cells. -/
theorem claim6_counterexample :
    ((create_statistics_chart [some "a", none] []).1.map
        (fun s => s.contagem)).sum ≠ [some "a", (none : Option Value)].length := by
  decide

/-- Claim C6 (amended): for every filtered column and color map, the returned
counts sum to the number of filtered rows with a non-missing value in the
target column (not to the total row count), and whenever at least one
non-missing value exists the returned percentages sum to exactly 100 (well
within the 0.01 tolerance). -/
theorem claim6_amended (col : List (Option Value)) (cm : List (Value × Color)) :
    ((create_statistics_chart col cm).1.map (fun s => s.contagem)).sum =
        (col.filterMap id).length ∧
      (col.filterMap id ≠ [] →
        ((create_statistics_chart col cm).1.map (fun s => s.percentual)).sum = 100) := by
  constructor
  · rw [stats_counts_eq, sum_dedup_count]
  · intro hne
    rw [stats_pcts_eq, sum_map_div_mul, sum_dedup_count]
    have h0 : (col.filterMap id).length ≠ 0 := fun h => hne (List.length_eq_zero.mp h)
    have hlen : ((col.filterMap id).length : ℚ) ≠ 0 := Nat.cast_ne_zero.mpr h0
    rw [div_self hlen, one_mul]

/-- Claim C6 witness: on the concrete column with values "a", "b", "a" the
counts sum to the 3 non-missing rows and the percentages sum to 100. -/
theorem claim6_witness :
    ((create_statistics_chart [some "a", some "b", some "a"] []).1.map
        (fun s => s.contagem)).sum =
        ([some "a", some "b", some "a"].filterMap id).length ∧
      ((create_statistics_chart [some "a", some "b", some "a"] []).1.map
        (fun s => s.percentual)).sum = 100 :=
  ⟨(claim6_amended [some "a", some "b", some "a"] []).1,
   (claim6_amended [some "a", some "b", some "a"] []).2 (by decide)⟩
